import Mathlib

/-!
Verification of the OAuth2 token endpoint of the mcp2 server
(`src/server/oauth/token.ts`), over a shallow embedding of the handlers.

The credential store (`src/server/oauth/storage.ts`) is not part of the
available sources; its operations are modelled from the spec (§4.1, §4.2):
keyed collections with get/put/delete, a PKCE validator computing
SHA-256, base64url-encoding without padding, and a constant-time compare.
The SHA-256 hash itself and the `jsonwebtoken` signing/verification
routines are external primitives and are abstracted as function
parameters of the embedding.
-/

namespace Mcp2

/-! ## Data model (records stored by the credential store) -/

/-- Authorization-code record, as created by the authorize flow and read
by `handleAuthorizationCodeGrant`. -/
structure AuthorizationCode where
  clientId : String
  redirectUri : String
  codeChallenge : String
  privyUserId : String
  privyToken : String
  scopes : List String
  expiresAt : Nat
  used : Bool
deriving DecidableEq

/-- Access-token record stored by `storeToken` (keyed by the JWT string). -/
structure TokenData where
  clientId : String
  privyUserId : String
  privyToken : String
  scopes : List String
  expiresAt : Nat
deriving DecidableEq

/-- Refresh-token record stored by `storeRefreshToken`. -/
structure RefreshTokenData where
  clientId : String
  privyUserId : String
  privyToken : String
  scopes : List String
  expiresAt : Nat
deriving DecidableEq

/-- Modelled from the spec: the credential store (`storage.ts`, not in the
sources) holds keyed collections with atomic get/put/delete; we model each
collection as an association list from opaque string keys to records. -/
structure Store where
  authorizationCodes : List (String × AuthorizationCode)
  tokens : List (String × TokenData)
  refreshTokens : List (String × RefreshTokenData)
deriving DecidableEq

/-! ## Association-list primitives for the modelled store -/

/-- Modelled from the spec: `get` on a keyed collection (JS `Map.get`). -/
def lookupA {α : Type} (m : List (String × α)) (k : String) : Option α :=
  match m with
  | [] => none
  | (k', v) :: rest => if k' = k then some v else lookupA rest k

/-- Modelled from the spec: `delete` on a keyed collection (JS `Map.delete`). -/
def eraseA {α : Type} : List (String × α) → String → List (String × α)
  | [], _ => []
  | (k', v) :: rest, k =>
      if k' = k then eraseA rest k else (k', v) :: eraseA rest k

/-- Modelled from the spec: `put` on a keyed collection (JS `Map.set`,
which replaces any previous binding of the key). -/
def insertA {α : Type} (m : List (String × α)) (k : String) (v : α) :
    List (String × α) :=
  (k, v) :: eraseA m k

/-! ## Base64url without padding, and the PKCE validator

The encoding is translated from the repository's own
`tests/e2e/auth/helpers/crypto.ts` (`generateCodeChallenge`/
`base64UrlEncode`): standard base64 of the byte string, with `+`→`-`,
`/`→`_`, and `=` padding stripped.  Bytes are `Nat` values `< 256`. -/

/-- The base64url alphabet (RFC 4648 §5). -/
def b64urlAlphabet : List Char :=
  "ABCDEFGHIJKLMNOPQRSTUVWXYZabcdefghijklmnopqrstuvwxyz0123456789-_".data

/-- The character for a sextet value. -/
def sextetChar (n : Nat) : Char :=
  b64urlAlphabet.getD n 'A'

/-- Sextet values of the unpadded base64 encoding of a byte list. -/
def b64Sextets : List Nat → List Nat
  | [] => []
  | [a] => [a / 4, a % 4 * 16]
  | [a, b] => [a / 4, a % 4 * 16 + b / 16, b % 16 * 4]
  | a :: b :: c :: rest =>
      a / 4 :: (a % 4 * 16 + b / 16) :: (b % 16 * 4 + c / 64) :: c % 64 ::
        b64Sextets rest

/-- Left inverse of `b64Sextets` on byte lists. -/
def b64Unsextets : List Nat → List Nat
  | [] => []
  | [_] => []
  | [s0, s1] => [s0 * 4 + s1 / 16]
  | [s0, s1, s2] => [s0 * 4 + s1 / 16, s1 % 16 * 16 + s2 / 4]
  | s0 :: s1 :: s2 :: s3 :: rest =>
      (s0 * 4 + s1 / 16) :: (s1 % 16 * 16 + s2 / 4) :: (s2 % 4 * 64 + s3) ::
        b64Unsextets rest

/-- Base64url encoding without padding of a byte list, as a string. -/
def base64UrlNoPad (bytes : List Nat) : String :=
  String.mk ((b64Sextets bytes).map sextetChar)

/-- Modelled from the spec: the constant-time string comparison used by
the PKCE validator (`storage.ts`, not in the sources): equal length and
a full pass comparing every position. -/
def constantTimeEq (a b : String) : Bool :=
  a.data.length == b.data.length &&
    (a.data.zip b.data).all (fun p => p.1 == p.2)

/-- Modelled from the spec: `validatePKCE` (`storage.ts`, not in the
sources; §4.2): compute SHA-256 of the verifier, base64url-encode without
padding, and compare constant-time-equal to the stored challenge.  The
SHA-256 hash is abstracted as the parameter `sha256`, returning the digest
as a byte list. -/
def validatePKCE (sha256 : String → List Nat) (verifier challenge : String) :
    Bool :=
  constantTimeEq (base64UrlNoPad (sha256 verifier)) challenge

/-! ## Configuration and environment

`config.jwt` is translated from `src/server/config.ts` (bundled in the
sources next to `src/server/middleware/privy.ts`): `expiresIn: '1h'`,
`algorithm: 'RS256'`, `issuer: SERVER_BASE_URL`.  Environment-derived
values (the base URL), the current time, the external `jsonwebtoken`
signer and the fresh opaque refresh-token value drawn by
`storeRefreshToken` are parameters of the embedding, collected in `Env`. -/

/-- The `expiresIn` union type (`string | number`) of the jsonwebtoken
sign options. -/
inductive StrOrNum where
  | str (s : String)
  | num (n : Nat)
deriving DecidableEq

/-- Translated from `config.ts`: `config.jwt.expiresIn = '1h'`. -/
def config_jwt_expiresIn : StrOrNum := .str "1h"

/-- Translated from `config.ts`: `config.jwt.algorithm = 'RS256'`. -/
def config_jwt_algorithm : String := "RS256"

/-- Translated from `token.ts`: `REFRESH_TOKEN_TTL_MS = 30*24*60*60*1000`. -/
def REFRESH_TOKEN_TTL_MS : Nat := 30 * 24 * 60 * 60 * 1000

/-- The JWT payload/options handed to `jwt.sign` in `issueAccessToken`. -/
structure JwtSignInput where
  sub : String
  scope : String
  aud : String
  client_id : String
  algorithm : String
  issuer : String
  keyid : String
  expiresIn : StrOrNum

/-- Request environment: current time, env-derived config values, and the
external primitives (JWT signer, SHA-256, fresh token generation). -/
structure Env where
  now : Nat
  serverBaseUrl : String
  jwtSign : JwtSignInput → String
  sha256 : String → List Nat
  freshRefreshToken : String

/-! ## Requests, responses and the storage-operation trace -/

/-- The fields of `req.body` read by the token endpoint.  A `none` models
a JS `undefined`. -/
structure TokenRequestBody where
  grant_type : Option String
  client_id : Option String
  code : Option String
  code_verifier : Option String
  redirect_uri : Option String
  resource : Option String
  refresh_token : Option String
deriving DecidableEq

/-- JS string falsiness: `undefined` and `""` are falsy. -/
def strFalsy : Option String → Bool
  | none => true
  | some s => s == ""

/-- The string a field evaluates to once known truthy. -/
def osGet (o : Option String) : String := o.getD ""

/-- JS template interpolation of a possibly-undefined string. -/
def osShow : Option String → String
  | none => "undefined"
  | some s => s

/-- An OAuth error body `{error, error_description}`. -/
structure ErrorBody where
  error : String
  error_description : String
deriving DecidableEq

/-- A successful token response. -/
structure TokenResponse where
  access_token : String
  refresh_token : String
  token_type : String
  expires_in : Nat
  scope : String
deriving DecidableEq

/-- Outcome of a token-endpoint request: an error status+body, or a 200
with a token response. -/
inductive TokenResult where
  | error (status : Nat) (body : ErrorBody)
  | ok (body : TokenResponse)
deriving DecidableEq

/-- The storage operations the handlers can invoke, recorded in order of
invocation.  `setAuthorizationCode` is the vocabulary for writing a code
record back (e.g. to flip its `used` flag); `token.ts` never calls it. -/
inductive StoreOp where
  | getAuthorizationCode (code : String)
  | deleteAuthorizationCode (code : String)
  | setAuthorizationCode (code : String) (v : AuthorizationCode)
  | storeToken (key : String) (v : TokenData)
  | storeRefreshToken (token : String) (v : RefreshTokenData)
  | getRefreshToken (token : String)
  | deleteRefreshToken (token : String)
  | getToken (token : String)
deriving DecidableEq

/-! ## Modelled storage operations (`storage.ts` is not in the sources) -/

/-- Modelled from the spec: `getAuthorizationCode` looks the code up. -/
def getAuthorizationCode (s : Store) (code : String) :
    Option AuthorizationCode :=
  lookupA s.authorizationCodes code

/-- Modelled from the spec: `deleteAuthorizationCode` removes the entry. -/
def deleteAuthorizationCode (s : Store) (code : String) : Store :=
  { s with authorizationCodes := eraseA s.authorizationCodes code }

/-- Modelled from the spec: `storeToken` stores the access-token record
keyed by the JWT string. -/
def storeToken (s : Store) (key : String) (v : TokenData) : Store :=
  { s with tokens := insertA s.tokens key v }

/-- Modelled from the spec: `getToken` looks the access-token record up. -/
def getToken (s : Store) (key : String) : Option TokenData :=
  lookupA s.tokens key

/-- Modelled from the spec: `storeRefreshToken` generates a fresh opaque
token (supplied here as `fresh`, abstracting the random generator),
stores the record under it, and returns it. -/
def storeRefreshToken (s : Store) (fresh : String) (v : RefreshTokenData) :
    Store × String :=
  ({ s with refreshTokens := insertA s.refreshTokens fresh v }, fresh)

/-- Modelled from the spec: `getRefreshToken` looks the record up. -/
def getRefreshToken (s : Store) (token : String) : Option RefreshTokenData :=
  lookupA s.refreshTokens token

/-- Modelled from the spec: `deleteRefreshToken` removes the entry. -/
def deleteRefreshToken (s : Store) (token : String) : Store :=
  { s with refreshTokens := eraseA s.refreshTokens token }

/-! ## The token endpoint (`src/server/oauth/token.ts`) -/

/-- Arguments of `issueAccessToken`. -/
structure MintArgs where
  privyUserId : String
  privyToken : String
  scopes : List String
  clientId : String
  audience : String

/-- Result of `issueAccessToken`. -/
structure MintResult where
  accessToken : String
  privyToken : String
  expiresIn : Nat

/-- `issueAccessToken` of `token.ts`: signs the JWT and computes
`expiresIn` in seconds (3600 when `config.jwt.expiresIn` is the string
`'1h'`, otherwise the numeric value divided by 1000). -/
def issueAccessToken (env : Env) (args : MintArgs) : MintResult :=
  let accessToken := env.jwtSign
    { sub := args.privyUserId
      scope := String.intercalate " " args.scopes
      aud := args.audience
      client_id := args.clientId
      algorithm := config_jwt_algorithm
      issuer := env.serverBaseUrl
      keyid := "key-1"
      expiresIn := config_jwt_expiresIn }
  let expiresInSeconds :=
    match config_jwt_expiresIn with
    | .str _ => 3600
    | .num n => n / 1000
  { accessToken := accessToken
    privyToken := args.privyToken
    expiresIn := expiresInSeconds }

/-- The tail of `handleAuthorizationCodeGrant` (`token.ts` lines 127-163)
run once every check has passed: delete the code, mint the JWT, store the
access-token and refresh-token records, and build the 200 response. -/
def authCodeGrantSuccess (env : Env) (s : Store) (body : TokenRequestBody)
    (authCode : AuthorizationCode) : Store × TokenResult × List StoreOp :=
  let code := osGet body.code
  let client_id := osGet body.client_id
  let s1 := deleteAuthorizationCode s code
  let audience :=
    if strFalsy body.resource then env.serverBaseUrl
    else osGet body.resource
  let minted := issueAccessToken env
    { privyUserId := authCode.privyUserId
      privyToken := authCode.privyToken
      scopes := authCode.scopes
      clientId := client_id
      audience := audience }
  let tokenData : TokenData :=
    { clientId := client_id
      privyUserId := authCode.privyUserId
      privyToken := minted.privyToken
      scopes := authCode.scopes
      expiresAt := env.now + minted.expiresIn * 1000 }
  let s2 := storeToken s1 minted.accessToken tokenData
  let rtData : RefreshTokenData :=
    { clientId := client_id
      privyUserId := authCode.privyUserId
      privyToken := authCode.privyToken
      scopes := authCode.scopes
      expiresAt := env.now + REFRESH_TOKEN_TTL_MS }
  let sr := storeRefreshToken s2 env.freshRefreshToken rtData
  (sr.1,
   .ok { access_token := minted.accessToken
         refresh_token := sr.2
         token_type := "Bearer"
         expires_in := minted.expiresIn
         scope := String.intercalate " " authCode.scopes },
   [.getAuthorizationCode code, .deleteAuthorizationCode code,
    .storeToken minted.accessToken tokenData,
    .storeRefreshToken sr.2 rtData])

/-- `handleAuthorizationCodeGrant` of `token.ts`, returning the updated
store, the HTTP outcome, and the trace of storage operations invoked. -/
def handleAuthorizationCodeGrant (env : Env) (s : Store)
    (body : TokenRequestBody) : Store × TokenResult × List StoreOp :=
  if strFalsy body.code || strFalsy body.code_verifier then
    (s, .error 400 ⟨"invalid_request",
      "Missing required parameters: code and code_verifier"⟩, [])
  else
    let code := osGet body.code
    let code_verifier := osGet body.code_verifier
    let client_id := osGet body.client_id
    match getAuthorizationCode s code with
    | none =>
      (s, .error 400 ⟨"invalid_grant",
        "Invalid or expired authorization code"⟩,
       [.getAuthorizationCode code])
    | some authCode =>
      if authCode.used then
        (s, .error 400 ⟨"invalid_grant",
          "Authorization code has already been used"⟩,
         [.getAuthorizationCode code])
      else if authCode.expiresAt < env.now then
        (deleteAuthorizationCode s code,
         .error 400 ⟨"invalid_grant", "Authorization code has expired"⟩,
         [.getAuthorizationCode code, .deleteAuthorizationCode code])
      else if authCode.clientId ≠ client_id then
        (s, .error 400 ⟨"invalid_grant", "Invalid client_id"⟩,
         [.getAuthorizationCode code])
      else if !strFalsy body.redirect_uri &&
          authCode.redirectUri != osGet body.redirect_uri then
        (s, .error 400 ⟨"invalid_grant", "redirect_uri does not match"⟩,
         [.getAuthorizationCode code])
      else if !validatePKCE env.sha256 code_verifier authCode.codeChallenge then
        (s, .error 400 ⟨"invalid_grant",
          "Invalid code_verifier (PKCE validation failed)"⟩,
         [.getAuthorizationCode code])
      else
        authCodeGrantSuccess env s body authCode

/-- The tail of `handleRefreshTokenGrant` (`token.ts` lines 199-233) run
once every check has passed: rotate the refresh token, mint the JWT,
store the new records, and build the 200 response. -/
def refreshGrantSuccess (env : Env) (s : Store) (body : TokenRequestBody)
    (storedRefreshToken : RefreshTokenData) :
    Store × TokenResult × List StoreOp :=
  let refresh_token := osGet body.refresh_token
  let s1 := deleteRefreshToken s refresh_token
  let rtData : RefreshTokenData :=
    { clientId := storedRefreshToken.clientId
      privyUserId := storedRefreshToken.privyUserId
      privyToken := storedRefreshToken.privyToken
      scopes := storedRefreshToken.scopes
      expiresAt := env.now + REFRESH_TOKEN_TTL_MS }
  let sr := storeRefreshToken s1 env.freshRefreshToken rtData
  let audience :=
    if strFalsy body.resource then env.serverBaseUrl
    else osGet body.resource
  let minted := issueAccessToken env
    { privyUserId := storedRefreshToken.privyUserId
      privyToken := storedRefreshToken.privyToken
      scopes := storedRefreshToken.scopes
      clientId := storedRefreshToken.clientId
      audience := audience }
  let tokenData : TokenData :=
    { clientId := storedRefreshToken.clientId
      privyUserId := storedRefreshToken.privyUserId
      privyToken := minted.privyToken
      scopes := storedRefreshToken.scopes
      expiresAt := env.now + minted.expiresIn * 1000 }
  let s2 := storeToken sr.1 minted.accessToken tokenData
  (s2,
   .ok { access_token := minted.accessToken
         refresh_token := sr.2
         token_type := "Bearer"
         expires_in := minted.expiresIn
         scope := String.intercalate " " storedRefreshToken.scopes },
   [.getRefreshToken refresh_token, .deleteRefreshToken refresh_token,
    .storeRefreshToken sr.2 rtData,
    .storeToken minted.accessToken tokenData])

/-- `handleRefreshTokenGrant` of `token.ts`. -/
def handleRefreshTokenGrant (env : Env) (s : Store)
    (body : TokenRequestBody) : Store × TokenResult × List StoreOp :=
  if strFalsy body.refresh_token then
    (s, .error 400 ⟨"invalid_request",
      "Missing required parameter: refresh_token"⟩, [])
  else
    let refresh_token := osGet body.refresh_token
    let client_id := osGet body.client_id
    match getRefreshToken s refresh_token with
    | none =>
      (s, .error 400 ⟨"invalid_grant", "Invalid refresh_token"⟩,
       [.getRefreshToken refresh_token])
    | some storedRefreshToken =>
      if storedRefreshToken.clientId ≠ client_id then
        (s, .error 400 ⟨"invalid_grant", "Client mismatch for refresh_token"⟩,
         [.getRefreshToken refresh_token])
      else if storedRefreshToken.expiresAt < env.now then
        (deleteRefreshToken s refresh_token,
         .error 400 ⟨"invalid_grant", "refresh_token has expired"⟩,
         [.getRefreshToken refresh_token, .deleteRefreshToken refresh_token])
      else
        refreshGrantSuccess env s body storedRefreshToken

/-- The `POST /token` router of `token.ts`: requires `client_id`, then
dispatches on `grant_type`. -/
def tokenEndpoint (env : Env) (s : Store) (body : TokenRequestBody) :
    Store × TokenResult × List StoreOp :=
  if strFalsy body.client_id then
    (s, .error 400 ⟨"invalid_request",
      "Missing required parameter: client_id"⟩, [])
  else if body.grant_type = some "authorization_code" then
    handleAuthorizationCodeGrant env s body
  else if body.grant_type = some "refresh_token" then
    handleRefreshTokenGrant env s body
  else
    (s, .error 400 ⟨"unsupported_grant_type",
      "Unsupported grant_type: " ++ osShow body.grant_type⟩, [])

/-! ## Introspection and the identity bridge (`token.ts`) -/

/-- The claims `jwt.verify` exposes on a token this server minted. -/
structure JwtVerified where
  sub : String
  scope : String
  client_id : String
  exp : Nat
  iat : Nat
  iss : String
  aud : String
deriving DecidableEq

/-- Body of an introspection response. -/
inductive IntrospectBody where
  | active (sub scope client_id : String) (exp iat : Nat) (iss aud : String)
  | inactive
deriving DecidableEq

/-- `POST /token/introspect` of `token.ts`: a falsy `token` is a 400 with
`{active:false}`; otherwise `jwt.verify` (abstracted as `verify`, `none`
modelling a thrown verification error) decides between the active
response and the catch-all `{active:false}` 200. -/
def introspectEndpoint (verify : String → Option JwtVerified)
    (token : Option String) : Nat × IntrospectBody :=
  if strFalsy token then (400, .inactive)
  else
    match verify (osGet token) with
    | some d => (200, .active d.sub d.scope d.client_id d.exp d.iat d.iss d.aud)
    | none => (200, .inactive)

/-- Body of a bridge-endpoint response. -/
inductive BridgeBody where
  | ok (privyAccessToken : String) (expiresAt : Nat) (userId : String)
      (scope : List String)
  | err (error : String)
deriving DecidableEq

/-- `POST /token/privy/access-token` of `token.ts`, after the
`validateToken` middleware: given `req.auth?.token`, a falsy token is a
401; otherwise the stored record decides between 404 `token_not_found`
and the bridged response (its `issuedAt` is the constant `null` and is
omitted here). -/
def privyAccessTokenEndpoint (s : Store) (oauthToken : Option String) :
    Nat × BridgeBody :=
  if strFalsy oauthToken then (401, .err "unauthorized")
  else
    match getToken s (osGet oauthToken) with
    | none => (404, .err "token_not_found")
    | some tokenData =>
      (200, .ok tokenData.privyToken tokenData.expiresAt
        tokenData.privyUserId tokenData.scopes)

/-! ## Concrete sample inputs used by the witnesses -/

/-- A stand-in hash with the byte-range property of a SHA-256 digest,
used to instantiate the abstract `sha256` parameter on concrete inputs. -/
def sampleSha (v : String) : List Nat :=
  v.data.map (fun c => c.toNat % 256)

/-- A concrete request environment. -/
def env0 : Env :=
  { now := 1000
    serverBaseUrl := "https://server.example"
    jwtSign := fun a => "jwt." ++ a.sub
    sha256 := sampleSha
    freshRefreshToken := "rt-new-1" }

/-- A concrete stored authorization code. -/
def authCode0 : AuthorizationCode :=
  { clientId := "chatgpt-connector"
    redirectUri := "https://chatgpt.com/cb"
    codeChallenge := base64UrlNoPad (sampleSha "verifier-a")
    privyUserId := "did:privy:u1"
    privyToken := "privy-token-1"
    scopes := ["read", "privy:token:exchange"]
    expiresAt := 2000
    used := false }

/-- A store holding just `authCode0` under the key `code-1`. -/
def store0 : Store :=
  { authorizationCodes := [("code-1", authCode0)]
    tokens := []
    refreshTokens := [] }

/-- A redemption request for `code-1` with the matching verifier. -/
def body0 : TokenRequestBody :=
  { grant_type := some "authorization_code"
    client_id := some "chatgpt-connector"
    code := some "code-1"
    code_verifier := some "verifier-a"
    redirect_uri := none
    resource := none
    refresh_token := none }

/-- The access-token record the sample redemption persists. -/
def tokenData0 : TokenData :=
  { clientId := "chatgpt-connector"
    privyUserId := "did:privy:u1"
    privyToken := "privy-token-1"
    scopes := ["read", "privy:token:exchange"]
    expiresAt := 1000 + 3600 * 1000 }

/-- The refresh-token record the sample redemption persists. -/
def rtData0 : RefreshTokenData :=
  { clientId := "chatgpt-connector"
    privyUserId := "did:privy:u1"
    privyToken := "privy-token-1"
    scopes := ["read", "privy:token:exchange"]
    expiresAt := 1000 + REFRESH_TOKEN_TTL_MS }

/-- The store after the sample redemption. -/
def store1 : Store :=
  { authorizationCodes := []
    tokens := [("jwt.did:privy:u1", tokenData0)]
    refreshTokens := [("rt-new-1", rtData0)] }

/-- The response of the sample redemption. -/
def resp0 : TokenResponse :=
  { access_token := "jwt.did:privy:u1"
    refresh_token := "rt-new-1"
    token_type := "Bearer"
    expires_in := 3600
    scope := "read privy:token:exchange" }

/-- The operation trace of the sample redemption. -/
def trace0 : List StoreOp :=
  [.getAuthorizationCode "code-1", .deleteAuthorizationCode "code-1",
   .storeToken "jwt.did:privy:u1" tokenData0,
   .storeRefreshToken "rt-new-1" rtData0]

/-- A concrete stored refresh token. -/
def rtStored0 : RefreshTokenData :=
  { clientId := "chatgpt-connector"
    privyUserId := "did:privy:u1"
    privyToken := "privy-token-1"
    scopes := ["read"]
    expiresAt := 5000 }

/-- A store holding just `rtStored0` under the key `rt-old`. -/
def storeR0 : Store :=
  { authorizationCodes := []
    tokens := []
    refreshTokens := [("rt-old", rtStored0)] }

/-- A refresh request presenting `rt-old`. -/
def bodyR0 : TokenRequestBody :=
  { grant_type := some "refresh_token"
    client_id := some "chatgpt-connector"
    code := none
    code_verifier := none
    redirect_uri := none
    resource := none
    refresh_token := some "rt-old" }

/-- Sample verified-JWT claims. -/
def jv0 : JwtVerified :=
  { sub := "did:privy:u1"
    scope := "read"
    client_id := "chatgpt-connector"
    exp := 4600
    iat := 1000
    iss := "https://server.example"
    aud := "https://server.example" }

/-- A sample verifier accepting exactly the token `tok-1`. -/
def verify0 (t : String) : Option JwtVerified :=
  if t = "tok-1" then some jv0 else none


/-- The sample environment at a later time, past `authCode0.expiresAt`. -/
def envLate : Env :=
  { env0 with now := 5000 }

/-- The refresh-token record stored by the sample refresh redemption. -/
def rtNew0 : RefreshTokenData :=
  { clientId := "chatgpt-connector"
    privyUserId := "did:privy:u1"
    privyToken := "privy-token-1"
    scopes := ["read"]
    expiresAt := 1000 + REFRESH_TOKEN_TTL_MS }

/-- The access-token record stored by the sample refresh redemption. -/
def tokenDataR0 : TokenData :=
  { clientId := "chatgpt-connector"
    privyUserId := "did:privy:u1"
    privyToken := "privy-token-1"
    scopes := ["read"]
    expiresAt := 1000 + 3600 * 1000 }

/-- The store after the sample refresh redemption. -/
def storeR1 : Store :=
  { authorizationCodes := []
    tokens := [("jwt.did:privy:u1", tokenDataR0)]
    refreshTokens := [("rt-new-1", rtNew0)] }

/-- The response of the sample refresh redemption. -/
def respR0 : TokenResponse :=
  { access_token := "jwt.did:privy:u1"
    refresh_token := "rt-new-1"
    token_type := "Bearer"
    expires_in := 3600
    scope := "read" }

/-- The operation trace of the sample refresh redemption. -/
def traceR0 : List StoreOp :=
  [.getRefreshToken "rt-old", .deleteRefreshToken "rt-old",
   .storeRefreshToken "rt-new-1" rtNew0,
   .storeToken "jwt.did:privy:u1" tokenDataR0]

/-- An authorization code whose challenge was derived from the verifier
`B`, not `A`. -/
def authCodeP : AuthorizationCode :=
  { authCode0 with codeChallenge := base64UrlNoPad (sampleSha "B") }

/-- A store holding just `authCodeP` under the key `code-p`. -/
def storeP : Store :=
  { authorizationCodes := [("code-p", authCodeP)]
    tokens := []
    refreshTokens := [] }

/-- A redemption request for `code-p` presenting the wrong verifier `A`. -/
def bodyP : TokenRequestBody :=
  { body0 with code := some "code-p", code_verifier := some "A" }

/-! ## Lemmas about the store primitives and the PKCE validator -/

theorem lookupA_eraseA_self {α : Type} (m : List (String × α)) (k : String) :
    lookupA (eraseA m k) k = none := by
  induction m with
  | nil => rfl
  | cons p rest ih =>
    obtain ⟨k0, v0⟩ := p
    by_cases h : k0 = k
    · simpa [eraseA, h] using ih
    · simpa [eraseA, lookupA, h] using ih

theorem lookupA_eraseA_ne {α : Type} (m : List (String × α)) (k k' : String)
    (h : k' ≠ k) : lookupA (eraseA m k) k' = lookupA m k' := by
  induction m with
  | nil => rfl
  | cons p rest ih =>
    obtain ⟨k0, v0⟩ := p
    by_cases hp : k0 = k
    · have hk0 : ¬ k0 = k' := fun hc => h (hc.symm.trans hp)
      simp only [eraseA, lookupA, if_pos hp, if_neg hk0]
      exact ih
    · simp only [eraseA, lookupA, if_neg hp]
      by_cases hk' : k0 = k'
      · simp only [lookupA, if_pos hk']
      · simp only [lookupA, if_neg hk']
        exact ih

theorem lookupA_insertA_self {α : Type} (m : List (String × α)) (k : String)
    (v : α) : lookupA (insertA m k v) k = some v := by
  simp [insertA, lookupA]

theorem lookupA_insertA_ne {α : Type} (m : List (String × α)) (k k' : String)
    (v : α) (h : k ≠ k') : lookupA (insertA m k v) k' = lookupA m k' := by
  simp [insertA, lookupA, h]
  exact lookupA_eraseA_ne m k k' (fun hc => h hc.symm)

theorem b64Unsextets_b64Sextets (l : List Nat) (hl : ∀ x ∈ l, x < 256) :
    b64Unsextets (b64Sextets l) = l := by
  induction l using b64Sextets.induct with
  | case1 => rfl
  | case2 a =>
    have ha : a < 256 := hl a (by simp)
    simp [b64Sextets, b64Unsextets]
    omega
  | case3 a b =>
    have ha : a < 256 := hl a (by simp)
    have hb : b < 256 := hl b (by simp)
    simp [b64Sextets, b64Unsextets]
    constructor <;> omega
  | case4 a b c rest ih =>
    have ha : a < 256 := hl a (by simp)
    have hb : b < 256 := hl b (by simp)
    have hc : c < 256 := hl c (by simp)
    have hrest : ∀ x ∈ rest, x < 256 := by
      intro x hx
      exact hl x (by simp [hx])
    simp [b64Sextets, b64Unsextets, ih hrest]
    refine ⟨by omega, by omega, by omega⟩

theorem b64Sextets_lt (l : List Nat) (hl : ∀ x ∈ l, x < 256) :
    ∀ s ∈ b64Sextets l, s < 64 := by
  induction l using b64Sextets.induct with
  | case1 => simp [b64Sextets]
  | case2 a =>
    have ha : a < 256 := hl a (by simp)
    simp [b64Sextets]
    omega
  | case3 a b =>
    have ha : a < 256 := hl a (by simp)
    have hb : b < 256 := hl b (by simp)
    simp [b64Sextets]
    refine ⟨by omega, by omega, by omega⟩
  | case4 a b c rest ih =>
    have ha : a < 256 := hl a (by simp)
    have hb : b < 256 := hl b (by simp)
    have hc : c < 256 := hl c (by simp)
    have hrest : ∀ x ∈ rest, x < 256 := by
      intro x hx
      exact hl x (by simp [hx])
    intro s hs
    simp [b64Sextets] at hs
    rcases hs with h | h | h | h | h
    · omega
    · omega
    · omega
    · omega
    · exact ih hrest s h

theorem sextetChar_injOn :
    ∀ i < 64, ∀ j < 64, sextetChar i = sextetChar j → i = j := by
  decide

theorem map_sextetChar_inj (l1 l2 : List Nat) (h1 : ∀ x ∈ l1, x < 64)
    (h2 : ∀ x ∈ l2, x < 64)
    (h : l1.map sextetChar = l2.map sextetChar) : l1 = l2 := by
  induction l1 generalizing l2 with
  | nil =>
    cases l2 with
    | nil => rfl
    | cons b t => simp at h
  | cons a t ih =>
    cases l2 with
    | nil => simp at h
    | cons b t2 =>
      simp only [List.map_cons, List.cons.injEq] at h
      have ha : a < 64 := h1 a (by simp)
      have hb : b < 64 := h2 b (by simp)
      have hab : a = b := sextetChar_injOn a ha b hb h.1
      have ht : t = t2 :=
        ih t2 (fun x hx => h1 x (List.mem_cons_of_mem a hx))
          (fun x hx => h2 x (List.mem_cons_of_mem b hx)) h.2
      rw [hab, ht]

/-- Base64url without padding is injective on byte lists. -/
theorem base64UrlNoPad_inj (l1 l2 : List Nat) (h1 : ∀ x ∈ l1, x < 256)
    (h2 : ∀ x ∈ l2, x < 256)
    (h : base64UrlNoPad l1 = base64UrlNoPad l2) : l1 = l2 := by
  have hdata : (b64Sextets l1).map sextetChar = (b64Sextets l2).map sextetChar := by
    have := congrArg String.data h
    simpa [base64UrlNoPad] using this
  have hsex : b64Sextets l1 = b64Sextets l2 :=
    map_sextetChar_inj _ _ (b64Sextets_lt l1 h1) (b64Sextets_lt l2 h2) hdata
  calc l1 = b64Unsextets (b64Sextets l1) := (b64Unsextets_b64Sextets l1 h1).symm
    _ = b64Unsextets (b64Sextets l2) := by rw [hsex]
    _ = l2 := b64Unsextets_b64Sextets l2 h2

theorem zip_all_eq (l1 l2 : List Char) (hlen : l1.length = l2.length)
    (h : (l1.zip l2).all (fun p => p.1 == p.2) = true) : l1 = l2 := by
  induction l1 generalizing l2 with
  | nil =>
    cases l2 with
    | nil => rfl
    | cons b t => simp at hlen
  | cons a t ih =>
    cases l2 with
    | nil => simp at hlen
    | cons b t2 =>
      simp only [List.zip_cons_cons, List.all_cons, Bool.and_eq_true, beq_iff_eq] at h
      simp only [List.length_cons, Nat.succ.injEq] at hlen
      rw [h.1, ih t2 hlen h.2]

theorem zip_self_all (l : List Char) :
    (l.zip l).all (fun p => p.1 == p.2) = true := by
  induction l with
  | nil => rfl
  | cons c t ih => simpa using ih

theorem constantTimeEq_iff (a b : String) : constantTimeEq a b = true ↔ a = b := by
  constructor
  · intro h
    simp only [constantTimeEq, Bool.and_eq_true, beq_iff_eq] at h
    exact congrArg String.mk (zip_all_eq a.data b.data h.1 h.2)
  · intro h
    subst h
    simp [constantTimeEq, zip_self_all]

/-! ## Success characterization of the two grant handlers -/

/-- The successful branch of `authCodeGrantSuccess`, written out: there
is a minted access-token string `at'` (the output of `jwt.sign`) such
that the result is exactly the stores, response and trace the code
builds. -/
theorem authCodeGrantSuccess_eq (env : Env) (s : Store)
    (body : TokenRequestBody) (ac : AuthorizationCode) :
    ∃ at' : String, authCodeGrantSuccess env s body ac =
      ({ authorizationCodes := eraseA s.authorizationCodes (osGet body.code)
         tokens := insertA s.tokens at'
           ⟨osGet body.client_id, ac.privyUserId, ac.privyToken,
            ac.scopes, env.now + 3600 * 1000⟩
         refreshTokens := insertA s.refreshTokens env.freshRefreshToken
           ⟨osGet body.client_id, ac.privyUserId, ac.privyToken,
            ac.scopes, env.now + REFRESH_TOKEN_TTL_MS⟩ },
       .ok { access_token := at'
             refresh_token := env.freshRefreshToken
             token_type := "Bearer"
             expires_in := 3600
             scope := String.intercalate " " ac.scopes },
       [.getAuthorizationCode (osGet body.code),
        .deleteAuthorizationCode (osGet body.code),
        .storeToken at'
          ⟨osGet body.client_id, ac.privyUserId, ac.privyToken,
           ac.scopes, env.now + 3600 * 1000⟩,
        .storeRefreshToken env.freshRefreshToken
          ⟨osGet body.client_id, ac.privyUserId, ac.privyToken,
           ac.scopes, env.now + REFRESH_TOKEN_TTL_MS⟩]) :=
  ⟨_, rfl⟩

/-- Everything a successful `authorization_code` redemption determines:
the checks that must have passed, and that the result is the success
computation on the stored code. -/
theorem authCodeGrant_ok_inv (env : Env) (s : Store) (body : TokenRequestBody)
    (s' : Store) (resp : TokenResponse) (tr : List StoreOp)
    (h : handleAuthorizationCodeGrant env s body = (s', .ok resp, tr)) :
    ∃ ac : AuthorizationCode,
      strFalsy body.code = false ∧
      strFalsy body.code_verifier = false ∧
      getAuthorizationCode s (osGet body.code) = some ac ∧
      ac.used = false ∧
      ¬ ac.expiresAt < env.now ∧
      ac.clientId = osGet body.client_id ∧
      validatePKCE env.sha256 (osGet body.code_verifier) ac.codeChallenge = true ∧
      authCodeGrantSuccess env s body ac = (s', .ok resp, tr) := by
  revert h
  unfold handleAuthorizationCodeGrant
  dsimp only
  split
  · intro h
    simp at h
  · rename_i hfalsy
    simp only [Bool.or_eq_true, not_or, Bool.not_eq_true] at hfalsy
    cases hlook : getAuthorizationCode s (osGet body.code) with
    | none =>
      intro h
      simp at h
    | some ac =>
      dsimp only
      by_cases hused : ac.used = true
      · rw [if_pos hused]
        intro h
        simp at h
      · rw [if_neg hused]
        by_cases hexp : ac.expiresAt < env.now
        · rw [if_pos hexp]
          intro h
          simp at h
        · rw [if_neg hexp]
          by_cases hclient : ac.clientId ≠ osGet body.client_id
          · rw [if_pos hclient]
            intro h
            simp at h
          · rw [if_neg hclient]
            by_cases hredir :
                (!strFalsy body.redirect_uri &&
                  ac.redirectUri != osGet body.redirect_uri) = true
            · rw [if_pos hredir]
              intro h
              simp at h
            · rw [if_neg hredir]
              by_cases hpkce :
                  (!validatePKCE env.sha256 (osGet body.code_verifier)
                    ac.codeChallenge) = true
              · rw [if_pos hpkce]
                intro h
                simp at h
              · rw [if_neg hpkce]
                intro h
                exact ⟨ac, hfalsy.1, hfalsy.2, rfl, by simpa using hused,
                  hexp, not_not.mp hclient, by simpa using hpkce, h⟩

/-- The successful branch of `refreshGrantSuccess`, written out. -/
theorem refreshGrantSuccess_eq (env : Env) (s : Store)
    (body : TokenRequestBody) (rt : RefreshTokenData) :
    ∃ at' : String, refreshGrantSuccess env s body rt =
      ({ authorizationCodes := s.authorizationCodes
         tokens := insertA s.tokens at'
           ⟨rt.clientId, rt.privyUserId, rt.privyToken,
            rt.scopes, env.now + 3600 * 1000⟩
         refreshTokens :=
           insertA (eraseA s.refreshTokens (osGet body.refresh_token))
             env.freshRefreshToken
             ⟨rt.clientId, rt.privyUserId, rt.privyToken,
              rt.scopes, env.now + REFRESH_TOKEN_TTL_MS⟩ },
       .ok { access_token := at'
             refresh_token := env.freshRefreshToken
             token_type := "Bearer"
             expires_in := 3600
             scope := String.intercalate " " rt.scopes },
       [.getRefreshToken (osGet body.refresh_token),
        .deleteRefreshToken (osGet body.refresh_token),
        .storeRefreshToken env.freshRefreshToken
          ⟨rt.clientId, rt.privyUserId, rt.privyToken,
           rt.scopes, env.now + REFRESH_TOKEN_TTL_MS⟩,
        .storeToken at'
          ⟨rt.clientId, rt.privyUserId, rt.privyToken,
           rt.scopes, env.now + 3600 * 1000⟩]) :=
  ⟨_, rfl⟩

/-- Everything a successful `refresh_token` redemption determines. -/
theorem refreshGrant_ok_inv (env : Env) (s : Store) (body : TokenRequestBody)
    (s' : Store) (resp : TokenResponse) (tr : List StoreOp)
    (h : handleRefreshTokenGrant env s body = (s', .ok resp, tr)) :
    ∃ rt : RefreshTokenData,
      strFalsy body.refresh_token = false ∧
      getRefreshToken s (osGet body.refresh_token) = some rt ∧
      rt.clientId = osGet body.client_id ∧
      ¬ rt.expiresAt < env.now ∧
      refreshGrantSuccess env s body rt = (s', .ok resp, tr) := by
  revert h
  unfold handleRefreshTokenGrant
  dsimp only
  split
  · intro h
    simp at h
  · rename_i hfalsy
    cases hlook : getRefreshToken s (osGet body.refresh_token) with
    | none =>
      intro h
      simp at h
    | some rt =>
      dsimp only
      by_cases hclient : rt.clientId ≠ osGet body.client_id
      · rw [if_pos hclient]
        intro h
        simp at h
      · rw [if_neg hclient]
        by_cases hexp : rt.expiresAt < env.now
        · rw [if_pos hexp]
          intro h
          simp at h
        · rw [if_neg hexp]
          intro h
          exact ⟨rt, by simpa using hfalsy, rfl, not_not.mp hclient, hexp, h⟩

/-- Forward evaluation: missing `code`/`code_verifier`. -/
theorem authCodeGrant_missing_params (env : Env) (s : Store)
    (body : TokenRequestBody)
    (h : (strFalsy body.code || strFalsy body.code_verifier) = true) :
    handleAuthorizationCodeGrant env s body =
      (s, .error 400 ⟨"invalid_request",
        "Missing required parameters: code and code_verifier"⟩, []) := by
  unfold handleAuthorizationCodeGrant
  rw [if_pos h]

/-- Forward evaluation: the presented code is not in the store. -/
theorem authCodeGrant_code_not_found (env : Env) (s : Store)
    (body : TokenRequestBody)
    (hc : strFalsy body.code = false)
    (hv : strFalsy body.code_verifier = false)
    (hlook : getAuthorizationCode s (osGet body.code) = none) :
    handleAuthorizationCodeGrant env s body =
      (s, .error 400 ⟨"invalid_grant",
        "Invalid or expired authorization code"⟩,
       [.getAuthorizationCode (osGet body.code)]) := by
  unfold handleAuthorizationCodeGrant
  rw [if_neg (by simp [hc, hv])]
  dsimp only
  rw [hlook]

/-- Forward evaluation: the presented refresh token is not in the store. -/
theorem refreshGrant_not_found (env : Env) (s : Store)
    (body : TokenRequestBody)
    (hf : strFalsy body.refresh_token = false)
    (hlook : getRefreshToken s (osGet body.refresh_token) = none) :
    handleRefreshTokenGrant env s body =
      (s, .error 400 ⟨"invalid_grant", "Invalid refresh_token"⟩,
       [.getRefreshToken (osGet body.refresh_token)]) := by
  unfold handleRefreshTokenGrant
  rw [if_neg (by simp [hf])]
  dsimp only
  rw [hlook]

/-! ## Claim theorems -/

/-- C10: for every `POST /token` request, a missing (falsy) `client_id`
fails with `invalid_request` before `grant_type` is examined, whatever
grant was requested; when `client_id` is present, any `grant_type` other
than `authorization_code` or `refresh_token` — including an absent one —
fails with `unsupported_grant_type`, not `invalid_request`. -/
theorem tokenEndpoint_clientId_before_grant_dispatch
    (env : Env) (s : Store) (body : TokenRequestBody) :
    (strFalsy body.client_id = true →
      tokenEndpoint env s body =
        (s, .error 400 ⟨"invalid_request",
          "Missing required parameter: client_id"⟩, [])) ∧
    (strFalsy body.client_id = false →
      body.grant_type ≠ some "authorization_code" →
      body.grant_type ≠ some "refresh_token" →
      tokenEndpoint env s body =
        (s, .error 400 ⟨"unsupported_grant_type",
          "Unsupported grant_type: " ++ osShow body.grant_type⟩, [])) := by
  constructor
  · intro h
    unfold tokenEndpoint
    rw [if_pos h]
  · intro h h1 h2
    unfold tokenEndpoint
    rw [if_neg (by simp [h]), if_neg h1, if_neg h2]

/-- Witness for C10: a request without `client_id` and a
`client_credentials` request, both at concrete inputs. -/
theorem tokenEndpoint_clientId_before_grant_dispatch_witness :
    tokenEndpoint env0 store0
        { grant_type := some "authorization_code", client_id := none,
          code := some "code-1", code_verifier := some "verifier-a",
          redirect_uri := none, resource := none, refresh_token := none } =
      (store0, .error 400 ⟨"invalid_request",
        "Missing required parameter: client_id"⟩, []) ∧
    tokenEndpoint env0 store0
        { grant_type := some "client_credentials",
          client_id := some "chatgpt-connector", code := none,
          code_verifier := none, redirect_uri := none, resource := none,
          refresh_token := none } =
      (store0, .error 400 ⟨"unsupported_grant_type",
        "Unsupported grant_type: client_credentials"⟩, []) :=
  ⟨(tokenEndpoint_clientId_before_grant_dispatch env0 store0 _).1 (by decide),
   (tokenEndpoint_clientId_before_grant_dispatch env0 store0 _).2 (by decide)
     (by decide) (by decide)⟩

/-- C9: introspection of a token that verifies (signature, issuer and
expiry checked by the abstracted `jwt.verify`) answers 200 with
`{active:true, sub, scope, client_id, exp, iat, iss, aud}`; every other
presented token gets a body of `{active:false}` and the status is always
200 or 400, never a 5xx. -/
theorem introspect_valid_or_inactive
    (verify : String → Option JwtVerified) (tok : String) :
    (∀ d, verify tok = some d → tok ≠ "" →
      introspectEndpoint verify (some tok) =
        (200, .active d.sub d.scope d.client_id d.exp d.iat d.iss d.aud)) ∧
    (verify tok = none →
      (introspectEndpoint verify (some tok)).2 = .inactive) ∧
    ((introspectEndpoint verify (some tok)).1 = 200 ∨
      (introspectEndpoint verify (some tok)).1 = 400) := by
  refine ⟨?_, ?_, ?_⟩
  · intro d hd hne
    unfold introspectEndpoint
    rw [if_neg (by simp [strFalsy, hne])]
    simp [osGet, hd]
  · intro hn
    by_cases hne : tok = ""
    · subst hne
      simp [introspectEndpoint, strFalsy]
    · unfold introspectEndpoint
      rw [if_neg (by simp [strFalsy, hne])]
      simp [osGet, hn]
  · by_cases hne : tok = ""
    · subst hne
      simp [introspectEndpoint, strFalsy]
    · unfold introspectEndpoint
      rw [if_neg (by simp [strFalsy, hne])]
      cases hv : verify (osGet (some tok)) <;> simp [hv]

/-- Witness for C9: a verifying token and a rejected token. -/
theorem introspect_valid_or_inactive_witness :
    introspectEndpoint verify0 (some "tok-1") =
      (200, .active "did:privy:u1" "read" "chatgpt-connector" 4600 1000
        "https://server.example" "https://server.example") ∧
    (introspectEndpoint verify0 (some "tok-bad")).2 = .inactive :=
  ⟨(introspect_valid_or_inactive verify0 "tok-1").1 jv0 rfl (by decide),
   (introspect_valid_or_inactive verify0 "tok-bad").2.1 rfl⟩

/-- C6: for an authenticated caller, the identity bridge returns the
stored identity token byte-for-byte unchanged together with its
`expiresAt`, subject (`userId`) and scopes when the access-token string
is in the `AccessToken` collection, and fails with a 404
`token_not_found` error, returning no identity token, otherwise. -/
theorem bridge_returns_exact_stored_token
    (s : Store) (tok : String) (hne : tok ≠ "") :
    (∀ d, getToken s tok = some d →
      privyAccessTokenEndpoint s (some tok) =
        (200, .ok d.privyToken d.expiresAt d.privyUserId d.scopes)) ∧
    (getToken s tok = none →
      privyAccessTokenEndpoint s (some tok) =
        (404, .err "token_not_found")) := by
  constructor
  · intro d hd
    unfold privyAccessTokenEndpoint
    rw [if_neg (by simp [strFalsy, hne])]
    simp [osGet, hd]
  · intro hn
    unfold privyAccessTokenEndpoint
    rw [if_neg (by simp [strFalsy, hne])]
    simp [osGet, hn]

/-- Witness for C6: a stored access token and an unknown one. -/
theorem bridge_returns_exact_stored_token_witness :
    privyAccessTokenEndpoint store1 (some "jwt.did:privy:u1") =
      (200, .ok "privy-token-1" (1000 + 3600 * 1000) "did:privy:u1"
        ["read", "privy:token:exchange"]) ∧
    privyAccessTokenEndpoint store1 (some "unknown-token") =
      (404, .err "token_not_found") :=
  ⟨(bridge_returns_exact_stored_token store1 "jwt.did:privy:u1"
      (by decide)).1 tokenData0 rfl,
   (bridge_returns_exact_stored_token store1 "unknown-token"
      (by decide)).2 rfl⟩

/-- C3: redeeming a stored, not-yet-used code whose `expiresAt` lies
before the current time fails with `invalid_grant`, deletes the expired
code from the store as part of handling the failure, and issues no access
or refresh token (both collections are untouched). -/
theorem expired_code_rejected_and_deleted
    (env : Env) (s : Store) (body : TokenRequestBody)
    (ac : AuthorizationCode)
    (hc : strFalsy body.code = false)
    (hv : strFalsy body.code_verifier = false)
    (hlook : getAuthorizationCode s (osGet body.code) = some ac)
    (hused : ac.used = false)
    (hexp : ac.expiresAt < env.now) :
    handleAuthorizationCodeGrant env s body =
      (deleteAuthorizationCode s (osGet body.code),
       .error 400 ⟨"invalid_grant", "Authorization code has expired"⟩,
       [.getAuthorizationCode (osGet body.code),
        .deleteAuthorizationCode (osGet body.code)]) ∧
    getAuthorizationCode (deleteAuthorizationCode s (osGet body.code))
      (osGet body.code) = none ∧
    (deleteAuthorizationCode s (osGet body.code)).tokens = s.tokens ∧
    (deleteAuthorizationCode s (osGet body.code)).refreshTokens =
      s.refreshTokens := by
  refine ⟨?_, ?_, rfl, rfl⟩
  · unfold handleAuthorizationCodeGrant
    rw [if_neg (by simp [hc, hv])]
    dsimp only
    rw [hlook]
    dsimp only
    rw [if_neg (by simp [hused]), if_pos hexp]
  · simp [getAuthorizationCode, deleteAuthorizationCode, lookupA_eraseA_self]

/-- Witness for C3: `authCode0` (expiry 2000) redeemed at time 5000. -/
theorem expired_code_rejected_and_deleted_witness :
    handleAuthorizationCodeGrant envLate store0 body0 =
      (deleteAuthorizationCode store0 "code-1",
       .error 400 ⟨"invalid_grant", "Authorization code has expired"⟩,
       [.getAuthorizationCode "code-1",
        .deleteAuthorizationCode "code-1"]) ∧
    getAuthorizationCode (deleteAuthorizationCode store0 "code-1")
      "code-1" = none ∧
    (deleteAuthorizationCode store0 "code-1").tokens = store0.tokens ∧
    (deleteAuthorizationCode store0 "code-1").refreshTokens =
      store0.refreshTokens :=
  expired_code_rejected_and_deleted envLate store0 body0 authCode0
    rfl rfl rfl rfl (by decide)

/-- C1: once an authorization code has been successfully redeemed, a
second redemption attempt of the same code can never return a token, and
whenever the retry carries a verifier it fails with the `invalid_grant`
error for an invalid or expired code. -/
theorem authorization_code_single_use
    (env env2 : Env) (s s' : Store) (body body2 : TokenRequestBody)
    (resp : TokenResponse) (tr : List StoreOp)
    (h1 : handleAuthorizationCodeGrant env s body = (s', .ok resp, tr))
    (hsame : body2.code = body.code) :
    (∀ s2 resp2 tr2,
      handleAuthorizationCodeGrant env2 s' body2 ≠ (s2, .ok resp2, tr2)) ∧
    (strFalsy body2.code_verifier = false →
      handleAuthorizationCodeGrant env2 s' body2 =
        (s', .error 400 ⟨"invalid_grant",
          "Invalid or expired authorization code"⟩,
         [.getAuthorizationCode (osGet body2.code)])) := by
  obtain ⟨ac, hc, hv, hlook, hused, hexp, hcli, hpk, hsucc⟩ :=
    authCodeGrant_ok_inv env s body s' resp tr h1
  obtain ⟨at', heq⟩ := authCodeGrantSuccess_eq env s body ac
  rw [hsucc] at heq
  have hs' : s'.authorizationCodes =
      eraseA s.authorizationCodes (osGet body.code) :=
    congrArg (fun p => p.1.authorizationCodes) heq
  have hnone : getAuthorizationCode s' (osGet body2.code) = none := by
    rw [hsame]
    show lookupA s'.authorizationCodes (osGet body.code) = none
    rw [hs']
    exact lookupA_eraseA_self _ _
  constructor
  · intro s2 resp2 tr2 hok
    obtain ⟨ac2, _, _, hlook2, _, _, _, _, _⟩ :=
      authCodeGrant_ok_inv env2 s' body2 s2 resp2 tr2 hok
    rw [hnone] at hlook2
    exact Option.noConfusion hlook2
  · intro hv2
    exact authCodeGrant_code_not_found env2 s' body2
      (by rw [hsame]; exact hc) hv2 hnone

/-- Witness for C1: after the sample redemption (which leaves `store1`),
repeating the very same request fails with `invalid_grant`. -/
theorem authorization_code_single_use_witness :
    handleAuthorizationCodeGrant env0 store1 body0 =
      (store1, .error 400 ⟨"invalid_grant",
        "Invalid or expired authorization code"⟩,
       [.getAuthorizationCode "code-1"]) :=
  (authorization_code_single_use env0 env0 store0 store1 body0 body0
    resp0 trace0 (by rfl) rfl).2 rfl

/-- C2 counterexample: a concrete successful redemption whose
storage-operation trace contains no write of any authorization-code
record — in particular no `used := true` transition ever happens; the
code is only read and deleted. -/
theorem used_flag_never_written_counterexample :
    (handleAuthorizationCodeGrant env0 store0 body0).2.1 = .ok resp0 ∧
    (∀ op ∈ (handleAuthorizationCodeGrant env0 store0 body0).2.2,
      ∀ k v, op ≠ .setAuthorizationCode k v) := by
  constructor
  · rfl
  · intro op hop k v
    have htr : (handleAuthorizationCodeGrant env0 store0 body0).2.2
        = trace0 := rfl
    rw [htr] at hop
    simp only [trace0, List.mem_cons, List.not_mem_nil, or_false] at hop
    rcases hop with h | h | h | h
    all_goals subst h
    all_goals simp

/-- C2 (amended): on every successful authorization-code redemption the
Token Exchanger deletes the code from the store — the deletion appears in
the operation trace and the code is no longer retrievable — and it never
writes an authorization-code record back, so the `used` flag is never set
to `true` (single use is enforced by the deletion alone). -/
theorem code_deleted_used_never_written
    (env : Env) (s s' : Store) (body : TokenRequestBody)
    (resp : TokenResponse) (tr : List StoreOp)
    (h1 : handleAuthorizationCodeGrant env s body = (s', .ok resp, tr)) :
    StoreOp.deleteAuthorizationCode (osGet body.code) ∈ tr ∧
    getAuthorizationCode s' (osGet body.code) = none ∧
    (∀ k v, StoreOp.setAuthorizationCode k v ∉ tr) := by
  obtain ⟨ac, hc, hv, hlook, hused, hexp, hcli, hpk, hsucc⟩ :=
    authCodeGrant_ok_inv env s body s' resp tr h1
  obtain ⟨at', heq⟩ := authCodeGrantSuccess_eq env s body ac
  rw [hsucc] at heq
  have hs' : s'.authorizationCodes =
      eraseA s.authorizationCodes (osGet body.code) :=
    congrArg (fun p => p.1.authorizationCodes) heq
  have htr : tr = [.getAuthorizationCode (osGet body.code),
      .deleteAuthorizationCode (osGet body.code),
      .storeToken at'
        ⟨osGet body.client_id, ac.privyUserId, ac.privyToken,
         ac.scopes, env.now + 3600 * 1000⟩,
      .storeRefreshToken env.freshRefreshToken
        ⟨osGet body.client_id, ac.privyUserId, ac.privyToken,
         ac.scopes, env.now + REFRESH_TOKEN_TTL_MS⟩] :=
    congrArg (fun p => p.2.2) heq
  refine ⟨?_, ?_, ?_⟩
  · rw [htr]
    simp
  · show lookupA s'.authorizationCodes (osGet body.code) = none
    rw [hs']
    exact lookupA_eraseA_self _ _
  · intro k v hmem
    rw [htr] at hmem
    simp only [List.mem_cons, List.not_mem_nil, or_false] at hmem
    rcases hmem with h | h | h | h
    all_goals exact StoreOp.noConfusion h

/-- Witness for C2 (amended) at the sample redemption. -/
theorem code_deleted_used_never_written_witness :
    StoreOp.deleteAuthorizationCode "code-1" ∈ trace0 ∧
    getAuthorizationCode store1 "code-1" = none ∧
    (∀ k v, StoreOp.setAuthorizationCode k v ∉ trace0) :=
  code_deleted_used_never_written env0 store0 store1 body0 resp0 trace0
    (by rfl)

/-- C4: a successful refresh deletes the presented refresh token (an
immediate retry with it fails with `invalid_grant`), and the replacement
that is stored and returned is the freshly generated token, distinct from
the presented one whenever the generator does not collide with it. -/
theorem refresh_token_rotation
    (env env2 : Env) (s s' : Store) (body body2 : TokenRequestBody)
    (resp : TokenResponse) (tr : List StoreOp)
    (h1 : handleRefreshTokenGrant env s body = (s', .ok resp, tr))
    (hfresh : env.freshRefreshToken ≠ osGet body.refresh_token)
    (hsame : body2.refresh_token = body.refresh_token) :
    getRefreshToken s' (osGet body.refresh_token) = none ∧
    resp.refresh_token = env.freshRefreshToken ∧
    resp.refresh_token ≠ osGet body.refresh_token ∧
    (∃ d, getRefreshToken s' resp.refresh_token = some d) ∧
    handleRefreshTokenGrant env2 s' body2 =
      (s', .error 400 ⟨"invalid_grant", "Invalid refresh_token"⟩,
       [.getRefreshToken (osGet body2.refresh_token)]) := by
  obtain ⟨rt, hf, hlook, hcli, hexp, hsucc⟩ :=
    refreshGrant_ok_inv env s body s' resp tr h1
  obtain ⟨at', heq⟩ := refreshGrantSuccess_eq env s body rt
  rw [hsucc] at heq
  have hsr : s'.refreshTokens =
      insertA (eraseA s.refreshTokens (osGet body.refresh_token))
        env.freshRefreshToken
        ⟨rt.clientId, rt.privyUserId, rt.privyToken,
         rt.scopes, env.now + REFRESH_TOKEN_TTL_MS⟩ :=
    congrArg (fun p => p.1.refreshTokens) heq
  have hresp : resp.refresh_token = env.freshRefreshToken := by
    have h2 := congrArg (fun p => p.2.1) heq
    simp only [TokenResult.ok.injEq] at h2
    rw [h2]
  have hnone : getRefreshToken s' (osGet body.refresh_token) = none := by
    show lookupA s'.refreshTokens (osGet body.refresh_token) = none
    rw [hsr, lookupA_insertA_ne _ _ _ _ hfresh]
    exact lookupA_eraseA_self _ _
  refine ⟨hnone, hresp, ?_, ?_, ?_⟩
  · rw [hresp]
    exact hfresh
  · refine ⟨⟨rt.clientId, rt.privyUserId, rt.privyToken, rt.scopes,
      env.now + REFRESH_TOKEN_TTL_MS⟩, ?_⟩
    show lookupA s'.refreshTokens resp.refresh_token = some _
    rw [hresp, hsr]
    exact lookupA_insertA_self _ _ _
  · exact refreshGrant_not_found env2 s' body2
      (by rw [hsame]; exact hf) (by rw [hsame]; exact hnone)

/-- Witness for C4 at the sample refresh redemption. -/
theorem refresh_token_rotation_witness :
    getRefreshToken storeR1 "rt-old" = none ∧
    respR0.refresh_token = "rt-new-1" ∧
    respR0.refresh_token ≠ "rt-old" ∧
    (∃ d, getRefreshToken storeR1 respR0.refresh_token = some d) ∧
    handleRefreshTokenGrant env0 storeR1 bodyR0 =
      (storeR1, .error 400 ⟨"invalid_grant", "Invalid refresh_token"⟩,
       [.getRefreshToken "rt-old"]) :=
  refresh_token_rotation env0 env0 storeR0 storeR1 bodyR0 bodyR0
    respR0 traceR0 (by rfl) (by decide) rfl

/-- C5: every successful grant, of either type, persists an access-token
record and a fresh refresh-token record whose `privyToken` is exactly the
identity token of the consumed authorization code (respectively of the
consumed refresh token) — the grant never alters the stored identity
token. -/
theorem identity_token_carried_forward
    (env : Env) (s s' : Store) (body : TokenRequestBody)
    (resp : TokenResponse) (tr : List StoreOp) :
    (handleAuthorizationCodeGrant env s body = (s', .ok resp, tr) →
      ∀ ac, getAuthorizationCode s (osGet body.code) = some ac →
        (∃ td, getToken s' resp.access_token = some td ∧
          td.privyToken = ac.privyToken) ∧
        (∃ rd, getRefreshToken s' resp.refresh_token = some rd ∧
          rd.privyToken = ac.privyToken)) ∧
    (handleRefreshTokenGrant env s body = (s', .ok resp, tr) →
      ∀ rt, getRefreshToken s (osGet body.refresh_token) = some rt →
        (∃ td, getToken s' resp.access_token = some td ∧
          td.privyToken = rt.privyToken) ∧
        (∃ rd, getRefreshToken s' resp.refresh_token = some rd ∧
          rd.privyToken = rt.privyToken)) := by
  constructor
  · intro h1 ac0 hlook0
    obtain ⟨ac, hc, hv, hlook, hused, hexp, hcli, hpk, hsucc⟩ :=
      authCodeGrant_ok_inv env s body s' resp tr h1
    rw [hlook0] at hlook
    obtain rfl : ac0 = ac := Option.some.inj hlook
    obtain ⟨at', heq⟩ := authCodeGrantSuccess_eq env s body ac0
    rw [hsucc] at heq
    have htok : s'.tokens = insertA s.tokens at'
        ⟨osGet body.client_id, ac0.privyUserId, ac0.privyToken,
         ac0.scopes, env.now + 3600 * 1000⟩ :=
      congrArg (fun p => p.1.tokens) heq
    have href : s'.refreshTokens = insertA s.refreshTokens
        env.freshRefreshToken
        ⟨osGet body.client_id, ac0.privyUserId, ac0.privyToken,
         ac0.scopes, env.now + REFRESH_TOKEN_TTL_MS⟩ :=
      congrArg (fun p => p.1.refreshTokens) heq
    have h2 := congrArg (fun p => p.2.1) heq
    simp only [TokenResult.ok.injEq] at h2
    have hat : resp.access_token = at' := by rw [h2]
    have hrt : resp.refresh_token = env.freshRefreshToken := by rw [h2]
    constructor
    · refine ⟨⟨osGet body.client_id, ac0.privyUserId, ac0.privyToken,
        ac0.scopes, env.now + 3600 * 1000⟩, ?_, rfl⟩
      show lookupA s'.tokens resp.access_token = some _
      rw [htok, hat]
      exact lookupA_insertA_self _ _ _
    · refine ⟨⟨osGet body.client_id, ac0.privyUserId, ac0.privyToken,
        ac0.scopes, env.now + REFRESH_TOKEN_TTL_MS⟩, ?_, rfl⟩
      show lookupA s'.refreshTokens resp.refresh_token = some _
      rw [href, hrt]
      exact lookupA_insertA_self _ _ _
  · intro h1 rt0 hlook0
    obtain ⟨rt, hf, hlook, hcli, hexp, hsucc⟩ :=
      refreshGrant_ok_inv env s body s' resp tr h1
    rw [hlook0] at hlook
    obtain rfl : rt0 = rt := Option.some.inj hlook
    obtain ⟨at', heq⟩ := refreshGrantSuccess_eq env s body rt0
    rw [hsucc] at heq
    have htok : s'.tokens = insertA s.tokens at'
        ⟨rt0.clientId, rt0.privyUserId, rt0.privyToken,
         rt0.scopes, env.now + 3600 * 1000⟩ :=
      congrArg (fun p => p.1.tokens) heq
    have href : s'.refreshTokens =
        insertA (eraseA s.refreshTokens (osGet body.refresh_token))
          env.freshRefreshToken
          ⟨rt0.clientId, rt0.privyUserId, rt0.privyToken,
           rt0.scopes, env.now + REFRESH_TOKEN_TTL_MS⟩ :=
      congrArg (fun p => p.1.refreshTokens) heq
    have h2 := congrArg (fun p => p.2.1) heq
    simp only [TokenResult.ok.injEq] at h2
    have hat : resp.access_token = at' := by rw [h2]
    have hrt : resp.refresh_token = env.freshRefreshToken := by rw [h2]
    constructor
    · refine ⟨⟨rt0.clientId, rt0.privyUserId, rt0.privyToken,
        rt0.scopes, env.now + 3600 * 1000⟩, ?_, rfl⟩
      show lookupA s'.tokens resp.access_token = some _
      rw [htok, hat]
      exact lookupA_insertA_self _ _ _
    · refine ⟨⟨rt0.clientId, rt0.privyUserId, rt0.privyToken,
        rt0.scopes, env.now + REFRESH_TOKEN_TTL_MS⟩, ?_, rfl⟩
      show lookupA s'.refreshTokens resp.refresh_token = some _
      rw [href, hrt]
      exact lookupA_insertA_self _ _ _

/-- Witness for C5 at the sample authorization-code redemption. -/
theorem identity_token_carried_forward_witness :
    (∃ td, getToken store1 resp0.access_token = some td ∧
      td.privyToken = authCode0.privyToken) ∧
    (∃ rd, getRefreshToken store1 resp0.refresh_token = some rd ∧
      rd.privyToken = authCode0.privyToken) :=
  (identity_token_carried_forward env0 store0 store1 body0 resp0
    trace0).1 (by rfl) authCode0 rfl

/-- C8: every successful token response, for both grant types, carries
`token_type = "Bearer"` and `expires_in = 3600` (the fixed one-hour
access-token lifetime), the stored replacement refresh token expires 30
days (in milliseconds) after issuance, and the `scope` field is that
stored record's scope list joined by single spaces. -/
theorem token_response_shape
    (env : Env) (s s' : Store) (body : TokenRequestBody)
    (resp : TokenResponse) (tr : List StoreOp)
    (h1 : tokenEndpoint env s body = (s', .ok resp, tr)) :
    resp.token_type = "Bearer" ∧
    resp.expires_in = 3600 ∧
    ∃ d, getRefreshToken s' resp.refresh_token = some d ∧
      d.expiresAt = env.now + 30 * 24 * 60 * 60 * 1000 ∧
      resp.scope = String.intercalate " " d.scopes := by
  unfold tokenEndpoint at h1
  by_cases hcid : strFalsy body.client_id = true
  · rw [if_pos hcid] at h1
    simp at h1
  · rw [if_neg hcid] at h1
    by_cases hga : body.grant_type = some "authorization_code"
    · rw [if_pos hga] at h1
      obtain ⟨ac, hc, hv, hlook, hused, hexp, hcli, hpk, hsucc⟩ :=
        authCodeGrant_ok_inv env s body s' resp tr h1
      obtain ⟨at', heq⟩ := authCodeGrantSuccess_eq env s body ac
      rw [hsucc] at heq
      have href : s'.refreshTokens = insertA s.refreshTokens
          env.freshRefreshToken
          ⟨osGet body.client_id, ac.privyUserId, ac.privyToken,
           ac.scopes, env.now + REFRESH_TOKEN_TTL_MS⟩ :=
        congrArg (fun p => p.1.refreshTokens) heq
      have h2 := congrArg (fun p => p.2.1) heq
      simp only [TokenResult.ok.injEq] at h2
      refine ⟨by rw [h2], by rw [h2],
        ⟨osGet body.client_id, ac.privyUserId, ac.privyToken,
         ac.scopes, env.now + REFRESH_TOKEN_TTL_MS⟩, ?_, rfl, by rw [h2]⟩
      show lookupA s'.refreshTokens resp.refresh_token = some _
      have hrt : resp.refresh_token = env.freshRefreshToken := by rw [h2]
      rw [href, hrt]
      exact lookupA_insertA_self _ _ _
    · rw [if_neg hga] at h1
      by_cases hgr : body.grant_type = some "refresh_token"
      · rw [if_pos hgr] at h1
        obtain ⟨rt, hf, hlook, hcli, hexp, hsucc⟩ :=
          refreshGrant_ok_inv env s body s' resp tr h1
        obtain ⟨at', heq⟩ := refreshGrantSuccess_eq env s body rt
        rw [hsucc] at heq
        have href : s'.refreshTokens =
            insertA (eraseA s.refreshTokens (osGet body.refresh_token))
              env.freshRefreshToken
              ⟨rt.clientId, rt.privyUserId, rt.privyToken,
               rt.scopes, env.now + REFRESH_TOKEN_TTL_MS⟩ :=
          congrArg (fun p => p.1.refreshTokens) heq
        have h2 := congrArg (fun p => p.2.1) heq
        simp only [TokenResult.ok.injEq] at h2
        refine ⟨by rw [h2], by rw [h2],
          ⟨rt.clientId, rt.privyUserId, rt.privyToken,
           rt.scopes, env.now + REFRESH_TOKEN_TTL_MS⟩, ?_, rfl, by rw [h2]⟩
        show lookupA s'.refreshTokens resp.refresh_token = some _
        have hrt : resp.refresh_token = env.freshRefreshToken := by rw [h2]
        rw [href, hrt]
        exact lookupA_insertA_self _ _ _
      · rw [if_neg hgr] at h1
        simp at h1

/-- Witness for C8 at the sample authorization-code redemption. -/
theorem token_response_shape_witness :
    resp0.token_type = "Bearer" ∧
    resp0.expires_in = 3600 ∧
    ∃ d, getRefreshToken store1 resp0.refresh_token = some d ∧
      d.expiresAt = 1000 + 30 * 24 * 60 * 60 * 1000 ∧
      resp0.scope = String.intercalate " " d.scopes :=
  token_response_shape env0 store0 store1 body0 resp0 trace0 (by rfl)

/-- C7: PKCE round trip over the abstracted SHA-256 digest `H` whose
outputs are byte lists: a verifier always validates against its own
challenge; for two distinct verifiers whose digests differ (a SHA-256
collision being the only way they could coincide), validation of the
wrong verifier fails, and a redemption presenting that verifier against
the other's challenge fails with `invalid_grant`. -/
theorem pkce_roundtrip_and_rejection
    (H : String → List Nat) (v v' : String)
    (hb1 : ∀ x ∈ H v, x < 256) (hb2 : ∀ x ∈ H v', x < 256)
    (hne : v ≠ v') (hcoll : H v ≠ H v') :
    validatePKCE H v (base64UrlNoPad (H v)) = true ∧
    validatePKCE H v (base64UrlNoPad (H v')) = false ∧
    (∀ env s body ac,
      env.sha256 = H →
      strFalsy body.code = false →
      body.code_verifier = some v →
      v ≠ "" →
      getAuthorizationCode s (osGet body.code) = some ac →
      ac.used = false →
      ¬ ac.expiresAt < env.now →
      ac.clientId = osGet body.client_id →
      strFalsy body.redirect_uri = true →
      ac.codeChallenge = base64UrlNoPad (H v') →
      handleAuthorizationCodeGrant env s body =
        (s, .error 400 ⟨"invalid_grant",
          "Invalid code_verifier (PKCE validation failed)"⟩,
         [.getAuthorizationCode (osGet body.code)])) := by
  have hb : base64UrlNoPad (H v) ≠ base64UrlNoPad (H v') := by
    intro hb
    exact hcoll (base64UrlNoPad_inj _ _ hb1 hb2 hb)
  have hval : validatePKCE H v (base64UrlNoPad (H v')) = false := by
    unfold validatePKCE
    cases hct : constantTimeEq (base64UrlNoPad (H v)) (base64UrlNoPad (H v'))
    · rfl
    · exact absurd ((constantTimeEq_iff _ _).mp hct) hb
  refine ⟨(constantTimeEq_iff _ _).mpr rfl, hval, ?_⟩
  intro env s body ac hH hc hverif hvne hlook hused hexp hcli hredir hchal
  have hvf : strFalsy body.code_verifier = false := by
    simp [hverif, strFalsy, hvne]
  have hcond : (!validatePKCE env.sha256 (osGet body.code_verifier)
      ac.codeChallenge) = true := by
    rw [hH, hchal, hverif]
    show (!validatePKCE H v (base64UrlNoPad (H v'))) = true
    rw [hval]
    rfl
  unfold handleAuthorizationCodeGrant
  rw [if_neg (by simp [hc, hvf])]
  dsimp only
  rw [hlook]
  dsimp only
  rw [if_neg (by simp [hused]), if_neg hexp,
    if_neg (not_not_intro hcli), if_neg (by simp [hredir]), if_pos hcond]

/-- Witness for C7 with the digest stand-in `sampleSha` and the distinct
verifiers `A` and `B`. -/
theorem pkce_roundtrip_and_rejection_witness :
    validatePKCE sampleSha "A" (base64UrlNoPad (sampleSha "A")) = true ∧
    validatePKCE sampleSha "A" (base64UrlNoPad (sampleSha "B")) = false ∧
    handleAuthorizationCodeGrant env0 storeP bodyP =
      (storeP, .error 400 ⟨"invalid_grant",
        "Invalid code_verifier (PKCE validation failed)"⟩,
       [.getAuthorizationCode "code-p"]) := by
  obtain ⟨w1, w2, w3⟩ := pkce_roundtrip_and_rejection sampleSha "A" "B"
    (by decide) (by decide) (by decide) (by decide)
  exact ⟨w1, w2, w3 env0 storeP bodyP authCodeP rfl rfl rfl (by decide)
    rfl rfl (by decide) rfl rfl rfl⟩

end Mcp2
